import Mathlib

/-!
Shallow embedding of `src/sksl/ir/SkSLIRNode.h` (SkSL intermediate-representation
node data model): the manually discriminated payload union `IRNode::NodeData`,
the node core (`fOffset`, `fKind`, payload, two child vectors), the `type()`
dispatch, the copy-assignment contract, the bounds-checked child accessors, and
the teardown protocol around the shared `SymbolTable` handles.

Modelling conventions:
- Externally owned records (`Type`, `ExternalValue`, `Variable`,
  `FunctionDeclaration`, `Symbol`, `Expression`) are identified by their `Nat`
  identity; a non-owning pointer is `Option Nat`, with `none` for nullptr.
- A `std::shared_ptr<SymbolTable>` is `Option TableId` (`none` for the empty
  handle); reference-count effects are made explicit as acquire/release event
  traces, evaluated against a share-count state `TableId → Nat`.
- `SkASSERT` failures and `SkUNREACHABLE` are faults, modelled with `Except`.
-/

namespace SkSL

/-- Identity of a reference-counted `SymbolTable` (scope table). -/
abbrev TableId := Nat

/-- Non-owning, possibly-null pointer to an externally owned `Type` record. -/
abbrev TypePtr := Option Nat

/-- Non-owning, possibly-null pointer to an `ExternalValue` record. -/
abbrev ExternalValuePtr := Option Nat

/-- Non-owning, possibly-null pointer to a `Variable` record. -/
abbrev VariablePtr := Option Nat

/-- Non-owning, possibly-null pointer to a `FunctionDeclaration` record. -/
abbrev FunctionPtr := Option Nat

/-- Non-owning, possibly-null pointer to a `Symbol` record. -/
abbrev SymbolPtr := Option Nat

/-- Non-owning, possibly-null pointer to an `Expression` record. -/
abbrev ExpressionPtr := Option Nat

/-- `IRNode::BlockData`: shared scope-table handle plus the is-scope flag. -/
structure BlockData where
  fSymbolTable : Option TableId
  fIsScope : Bool
  deriving DecidableEq

/-- `IRNode::BoolLiteralData`. -/
structure BoolLiteralData where
  fType : TypePtr
  fValue : Bool
  deriving DecidableEq

/-- `IRNode::EnumData`: type name, shared symbol-table handle, builtin flag. -/
structure EnumData where
  fTypeName : String
  fSymbols : Option TableId
  fIsBuiltin : Bool
  deriving DecidableEq

/-- `IRNode::ExternalValueData`. -/
structure ExternalValueData where
  fType : TypePtr
  fValue : ExternalValuePtr
  deriving DecidableEq

/-- `IRNode::FieldData`. -/
structure FieldData where
  fName : String
  fType : TypePtr
  fOwner : VariablePtr
  fFieldIndex : Int
  deriving DecidableEq

/-- `IRNode::FloatLiteralData`; the 32-bit float value is carried as its bit
pattern, which this layer only stores and copies, never computes with. -/
structure FloatLiteralData where
  fType : TypePtr
  fValue : Nat
  deriving DecidableEq

/-- `IRNode::ForStatementData`: shared scope-table handle. -/
structure ForStatementData where
  fSymbolTable : Option TableId
  deriving DecidableEq

/-- `IRNode::FunctionCallData`. -/
structure FunctionCallData where
  fType : TypePtr
  fFunction : FunctionPtr
  deriving DecidableEq

/-- `IRNode::IntLiteralData` (64-bit signed value; no arithmetic happens
on it in this layer, so it is carried as a plain `Int`). -/
structure IntLiteralData where
  fType : TypePtr
  fValue : Int
  deriving DecidableEq

/-- `IRNode::SymbolData`. -/
structure SymbolData where
  fName : String
  fType : TypePtr
  deriving DecidableEq

/-- `IRNode::SymbolAliasData`. -/
structure SymbolAliasData where
  fName : String
  fOrigSymbol : SymbolPtr
  deriving DecidableEq

/-- `IRNode::TypeTokenData`; the token kind is an opaque enumerator code. -/
structure TypeTokenData where
  fType : TypePtr
  fToken : Nat
  deriving DecidableEq

/-- `IRNode::VariableData`; `fModifiersHandle` is the interned
`ModifiersPool::Handle`, `fStorage` the `Variable::Storage` enumerator code,
and the two counters are the mutable liveness counts. -/
structure VariableData where
  fName : String
  fType : TypePtr
  fInitialValue : ExpressionPtr := none
  fModifiersHandle : Nat
  fReadCount : Int
  fWriteCount : Int
  fStorage : Int
  fBuiltin : Bool
  deriving DecidableEq

/-- `IRNode::NodeData::Kind`: the payload discriminant. -/
inductive NodeDataKind where
  | kBlock
  | kBoolLiteral
  | kEnum
  | kExternalValue
  | kField
  | kFloatLiteral
  | kForStatement
  | kFunctionCall
  | kIntLiteral
  | kString
  | kSymbol
  | kSymbolAlias
  | kType
  | kTypeToken
  | kVariable
  deriving DecidableEq

/-- `IRNode::NodeData`: the tagged payload. The C++ code keeps a `Kind`
discriminant synchronized with a raw union; the class invariant (every
constructor and `operator=` sets both together) makes it a sum type, which is
embedded here directly. -/
inductive NodeData where
  | kBlock (d : BlockData)
  | kBoolLiteral (d : BoolLiteralData)
  | kEnum (d : EnumData)
  | kExternalValue (d : ExternalValueData)
  | kField (d : FieldData)
  | kFloatLiteral (d : FloatLiteralData)
  | kForStatement (d : ForStatementData)
  | kFunctionCall (d : FunctionCallData)
  | kIntLiteral (d : IntLiteralData)
  | kString (d : String)
  | kSymbol (d : SymbolData)
  | kSymbolAlias (d : SymbolAliasData)
  | kType (d : TypePtr)
  | kTypeToken (d : TypeTokenData)
  | kVariable (d : VariableData)
  deriving DecidableEq

/-- The discriminant of a payload (`NodeData::fKind`). -/
def NodeData.kind : NodeData → NodeDataKind
  | .kBlock _ => .kBlock
  | .kBoolLiteral _ => .kBoolLiteral
  | .kEnum _ => .kEnum
  | .kExternalValue _ => .kExternalValue
  | .kField _ => .kField
  | .kFloatLiteral _ => .kFloatLiteral
  | .kForStatement _ => .kForStatement
  | .kFunctionCall _ => .kFunctionCall
  | .kIntLiteral _ => .kIntLiteral
  | .kString _ => .kString
  | .kSymbol _ => .kSymbol
  | .kSymbolAlias _ => .kSymbolAlias
  | .kType _ => .kType
  | .kTypeToken _ => .kTypeToken
  | .kVariable _ => .kVariable

/-- Faults of this layer: `SkASSERT` failure, `SkUNREACHABLE`, and a null
pointer dereference (undefined behaviour in the C++ source). -/
inductive Fault where
  | assertFail
  | unreachable
  | nullDeref
  deriving DecidableEq

/-- Dereference of a possibly-null `const Type*`. -/
def derefType : TypePtr → Except Fault Nat
  | some t => .ok t
  | none => .error .nullDeref

/-- Modelled from the spec: a child node (`Expression` / `Statement`, which are
only forward-declared in this header). A child is identified by `id` and, per
the spec, may itself hold shared scope-table handles that it releases during
its own teardown. -/
structure Child where
  id : Nat
  heldTables : List TableId
  deriving DecidableEq

/-- `IRNode`: source offset, node kind tag, tagged payload, and the two
independently indexed child sequences (`fExpressionChildren`,
`fStatementChildren`). -/
structure IRNode where
  fOffset : Int
  fKind : Int
  fData : NodeData
  fExpressionChildren : List Child
  fStatementChildren : List Child
  deriving DecidableEq

/-- `IRNode::type()`: dispatch on the payload discriminant; shapes carrying a
type pointer dereference it, all other shapes hit `SkUNREACHABLE`. -/
def IRNode.type (n : IRNode) : Except Fault Nat :=
  match n.fData with
  | .kBoolLiteral d => derefType d.fType
  | .kExternalValue d => derefType d.fType
  | .kField d => derefType d.fType
  | .kFloatLiteral d => derefType d.fType
  | .kFunctionCall d => derefType d.fType
  | .kIntLiteral d => derefType d.fType
  | .kSymbol d => derefType d.fType
  | .kType p => derefType p
  | .kTypeToken d => derefType d.fType
  | .kVariable d => derefType d.fType
  | _ => .error .unreachable

/-- `IRNode::operator=`: asserts the source has no expression children, then
copies `fKind`, `fOffset` and `fData`, leaving the destination's child vectors
untouched. -/
def IRNode.copyAssign (dst src : IRNode) : Except Fault IRNode :=
  if src.fExpressionChildren.isEmpty then
    .ok { dst with fKind := src.fKind, fOffset := src.fOffset, fData := src.fData }
  else
    .error .assertFail

/-- `IRNode::expressionChild(int)`: asserts `0 <= index < size`, then returns
the child stored at that position. -/
def IRNode.expressionChild (n : IRNode) (index : Int) : Except Fault Child :=
  if h : 0 ≤ index ∧ index < (n.fExpressionChildren.length : Int) then
    .ok (n.fExpressionChildren.get ⟨index.toNat, by omega⟩)
  else
    .error .assertFail

/-- `IRNode::statementChild(int)`: asserts `0 <= index < size`, then returns
the child stored at that position in the statement sequence. -/
def IRNode.statementChild (n : IRNode) (index : Int) : Except Fault Child :=
  if h : 0 ≤ index ∧ index < (n.fStatementChildren.length : Int) then
    .ok (n.fStatementChildren.get ⟨index.toNat, by omega⟩)
  else
    .error .assertFail

/-- `IRNode::expressionChildCount()`. -/
def IRNode.expressionChildCount (n : IRNode) : Nat :=
  n.fExpressionChildren.length

/-- `IRNode::statementChildCount()`. -/
def IRNode.statementChildCount (n : IRNode) : Nat :=
  n.fStatementChildren.length

/-- Liveness passes write `variableData().fReadCount` through the mutable
accessor, which asserts the payload discriminant is `kVariable`. -/
def IRNode.setVarReadCount (n : IRNode) (c : Int) : Except Fault IRNode :=
  match n.fData with
  | .kVariable d => .ok { n with fData := .kVariable { d with fReadCount := c } }
  | _ => .error .assertFail

/-- Liveness passes write `variableData().fWriteCount` through the mutable
accessor, which asserts the payload discriminant is `kVariable`. -/
def IRNode.setVarWriteCount (n : IRNode) (c : Int) : Except Fault IRNode :=
  match n.fData with
  | .kVariable d => .ok { n with fData := .kVariable { d with fWriteCount := c } }
  | _ => .error .assertFail

/-- `IRNode(int, int, const Type*)` has default argument `data = nullptr`
(header line 418): a TypeReference node constructed without an explicit type
stores a null pointer and no children. -/
def IRNode.mkTypeDefault (offset kind : Int) : IRNode :=
  ⟨offset, kind, .kType none, [], []⟩

/-- The shared scope-table handles held by a payload: `BlockData.fSymbolTable`,
`EnumData.fSymbols` and `ForStatementData.fSymbolTable` are the only
`std::shared_ptr` members across the shape catalogue. -/
def NodeData.sharedTables : NodeData → List TableId
  | .kBlock d => d.fSymbolTable.toList
  | .kEnum d => d.fSymbols.toList
  | .kForStatement d => d.fSymbolTable.toList
  | _ => []

/-- Reference-count events on shared scope-table handles. -/
inductive Ev where
  | release (t : TableId)
  | acquire (t : TableId)
  deriving DecidableEq

/-- True exactly on release events. -/
def Ev.isRelease : Ev → Bool
  | .release _ => true
  | .acquire _ => false

/-- `NodeData::cleanup()`: runs the active shape's destructor; destroying a
shape that holds `shared_ptr` handles releases one share per handle, all other
shapes release nothing (the `kType` case of the switch is explicitly empty). -/
def NodeData.cleanupEvents : NodeData → List Ev
  | .kBlock d => d.fSymbolTable.toList.map Ev.release
  | .kBoolLiteral _ => []
  | .kEnum d => d.fSymbols.toList.map Ev.release
  | .kExternalValue _ => []
  | .kField _ => []
  | .kFloatLiteral _ => []
  | .kForStatement d => d.fSymbolTable.toList.map Ev.release
  | .kFunctionCall _ => []
  | .kIntLiteral _ => []
  | .kString _ => []
  | .kSymbol _ => []
  | .kSymbolAlias _ => []
  | .kType _ => []
  | .kTypeToken _ => []
  | .kVariable _ => []

/-- `NodeData::operator=`: first `cleanup()` tears down the active shape, then
the switch placement-constructs a copy of the source's shape; copying a shape
that holds `shared_ptr` handles acquires one share per handle. Returns the
resulting payload value and the reference-count event trace in program order. -/
def NodeData.assign (dst src : NodeData) : NodeData × List Ev :=
  let evs := dst.cleanupEvents
  match src with
  | .kBlock d => (.kBlock d, evs ++ d.fSymbolTable.toList.map Ev.acquire)
  | .kBoolLiteral d => (.kBoolLiteral d, evs)
  | .kEnum d => (.kEnum d, evs ++ d.fSymbols.toList.map Ev.acquire)
  | .kExternalValue d => (.kExternalValue d, evs)
  | .kField d => (.kField d, evs)
  | .kFloatLiteral d => (.kFloatLiteral d, evs)
  | .kForStatement d => (.kForStatement d, evs ++ d.fSymbolTable.toList.map Ev.acquire)
  | .kFunctionCall d => (.kFunctionCall d, evs)
  | .kIntLiteral d => (.kIntLiteral d, evs)
  | .kString s => (.kString s, evs)
  | .kSymbol d => (.kSymbol d, evs)
  | .kSymbolAlias d => (.kSymbolAlias d, evs)
  | .kType p => (.kType p, evs)
  | .kTypeToken d => (.kTypeToken d, evs)
  | .kVariable d => (.kVariable d, evs)

/-- `NodeData(const NodeData&)`: delegates to `operator=` with the
discriminant defaulted to `kType`, whose cleanup is a no-op. -/
def NodeData.copyCtor (src : NodeData) : NodeData × List Ev :=
  NodeData.assign (NodeData.kType none) src

/-- One reference-count event applied to a share-count state. -/
def applyEv (s : TableId → Nat) : Ev → TableId → Nat
  | .acquire t => fun u => if u = t then s u + 1 else s u
  | .release t => fun u => if u = t then s u - 1 else s u

/-- A trace of reference-count events applied left to right. -/
def runEvents (s : TableId → Nat) : List Ev → TableId → Nat
  | [] => s
  | e :: es => runEvents (applyEv s e) es

/-- Events observable while an `IRNode` is destroyed: a scope-table share
release, or the completion marker of one child's destructor. -/
inductive DEv where
  | release (t : TableId)
  | stmtDone (id : Nat)
  | exprDone (id : Nat)
  deriving DecidableEq

/-- Modelled from the spec: the destructor of a `Statement` child (its class
is outside this header) may release scope-table shares the child holds; the
`stmtDone` marker records that the child has finished destructing. -/
def Child.destroyEventsStmt (c : Child) : List DEv :=
  c.heldTables.map DEv.release ++ [DEv.stmtDone c.id]

/-- Modelled from the spec: the destructor of an `Expression` child, analogous
to `Child.destroyEventsStmt`. -/
def Child.destroyEventsExpr (c : Child) : List DEv :=
  c.heldTables.map DEv.release ++ [DEv.exprDone c.id]

/-- Destruction trace of `~IRNode()`: C++ destroys members in reverse
declaration order, so `fStatementChildren` (declared last, per the comment at
header lines 565-567) is destroyed first, then `fExpressionChildren`, and the
payload `fData` last, releasing its shared handles. -/
def IRNode.destroyTrace (n : IRNode) : List DEv :=
  (n.fStatementChildren.map Child.destroyEventsStmt).flatten ++
  (n.fExpressionChildren.map Child.destroyEventsExpr).flatten ++
  n.fData.sharedTables.map DEv.release

/-- Number of releases of table `t` in a destruction trace. -/
def relCount (t : TableId) (evs : List DEv) : Nat :=
  evs.count (DEv.release t)

/-- Modelled from the spec: the `Variable::Storage` enumerator codes are not
under this header; only the distinct identities of the local and out storage
classes matter here. -/
def storageLocal : Int := 0

/-- Modelled from the spec: the storage-class code of an `out` variable. -/
def storageOut : Int := 1

/-- Modelled from the spec: the dead-code eligibility predicate
(read-count == 0 AND storage-class is not `out`), stated in the source only as
the comment on `VariableData::fReadCount`. -/
def VariableData.deadCodeEligible (v : VariableData) : Bool :=
  v.fReadCount == 0 && !(v.fStorage == storageOut)

/-- External mutation of the mutable `fWriteCount` counter. -/
def VariableData.setWriteCount (v : VariableData) (w : Int) : VariableData :=
  { v with fWriteCount := w }

/-! Concrete nodes used to instantiate the contracts below. -/

/-- A destination node with one expression child and one statement child. -/
def dstNode : IRNode := ⟨7, 1, .kString "dst", [⟨1, []⟩], [⟨2, []⟩]⟩

/-- A source node with no expression children but one statement child. -/
def srcStmtNode : IRNode := ⟨9, 2, .kBoolLiteral ⟨some 4, true⟩, [], [⟨3, []⟩]⟩

/-- A source node owning one expression child. -/
def srcExprNode : IRNode := ⟨9, 2, .kBoolLiteral ⟨some 4, true⟩, [⟨4, []⟩], []⟩

/-- The value produced by copy-assigning `dstNode` from `srcStmtNode`. -/
def assignedNode : IRNode := ⟨9, 2, .kBoolLiteral ⟨some 4, true⟩, [⟨1, []⟩], [⟨2, []⟩]⟩

/-- A node with two expression children and one statement child. -/
def childNode : IRNode := ⟨0, 3, .kString "s", [⟨10, []⟩, ⟨11, []⟩], [⟨20, []⟩]⟩

/-! Helper lemmas shared by the payload-trace theorems. -/

theorem NodeData.cleanupEvents_eq (d : NodeData) :
    d.cleanupEvents = d.sharedTables.map Ev.release := by
  cases d <;> rfl

theorem NodeData.assign_eq (dst src : NodeData) :
    NodeData.assign dst src =
      (src, dst.cleanupEvents ++ src.sharedTables.map Ev.acquire) := by
  cases src <;> simp [NodeData.assign, NodeData.sharedTables]

theorem runEvents_acquires (s : TableId → Nat) (L : List TableId) (t : TableId) :
    runEvents s (L.map Ev.acquire) t = s t + L.count t := by
  induction L generalizing s with
  | nil => simp [runEvents]
  | cons a L ih =>
      simp only [List.map_cons, runEvents, ih, applyEv, List.count_cons]
      by_cases h : t = a
      · subst h; simp; omega
      · have h2 : ¬(a = t) := fun hh => h hh.symm
        simp [h, h2]

/-- C2: for every type-bearing payload shape (BoolLiteral, ExternalBinding,
Field, FloatLiteral, FunctionCall, IntLiteral, Symbol, TypeReference,
TypeToken, Variable), constructing a node with that shape carrying a type
reference T and calling `type()` returns exactly T; on a node built from any
other shape (Block, Enum, ForHeader, StringLiteral, SymbolAlias), `type()`
hits `SkUNREACHABLE` and never produces a value. -/
theorem type_dispatch_correct :
    (∀ off k es ss (T : Nat) (b : Bool),
      (IRNode.mk off k (.kBoolLiteral ⟨some T, b⟩) es ss).type = .ok T) ∧
    (∀ off k es ss (T : Nat) (v : ExternalValuePtr),
      (IRNode.mk off k (.kExternalValue ⟨some T, v⟩) es ss).type = .ok T) ∧
    (∀ off k es ss (T : Nat) (nm : String) (ow : VariablePtr) (ix : Int),
      (IRNode.mk off k (.kField ⟨nm, some T, ow, ix⟩) es ss).type = .ok T) ∧
    (∀ off k es ss (T : Nat) (bits : Nat),
      (IRNode.mk off k (.kFloatLiteral ⟨some T, bits⟩) es ss).type = .ok T) ∧
    (∀ off k es ss (T : Nat) (f : FunctionPtr),
      (IRNode.mk off k (.kFunctionCall ⟨some T, f⟩) es ss).type = .ok T) ∧
    (∀ off k es ss (T : Nat) (v : Int),
      (IRNode.mk off k (.kIntLiteral ⟨some T, v⟩) es ss).type = .ok T) ∧
    (∀ off k es ss (T : Nat) (nm : String),
      (IRNode.mk off k (.kSymbol ⟨nm, some T⟩) es ss).type = .ok T) ∧
    (∀ off k es ss (T : Nat),
      (IRNode.mk off k (.kType (some T)) es ss).type = .ok T) ∧
    (∀ off k es ss (T : Nat) (tok : Nat),
      (IRNode.mk off k (.kTypeToken ⟨some T, tok⟩) es ss).type = .ok T) ∧
    (∀ off k es ss (T : Nat) (d : VariableData),
      (IRNode.mk off k (.kVariable { d with fType := some T }) es ss).type = .ok T) ∧
    (∀ off k es ss (d : BlockData),
      (IRNode.mk off k (.kBlock d) es ss).type = .error .unreachable) ∧
    (∀ off k es ss (d : EnumData),
      (IRNode.mk off k (.kEnum d) es ss).type = .error .unreachable) ∧
    (∀ off k es ss (d : ForStatementData),
      (IRNode.mk off k (.kForStatement d) es ss).type = .error .unreachable) ∧
    (∀ off k es ss (str : String),
      (IRNode.mk off k (.kString str) es ss).type = .error .unreachable) ∧
    (∀ off k es ss (d : SymbolAliasData),
      (IRNode.mk off k (.kSymbolAlias d) es ss).type = .error .unreachable) := by
  refine ⟨?_, ?_, ?_, ?_, ?_, ?_, ?_, ?_, ?_, ?_, ?_, ?_, ?_, ?_, ?_⟩ <;> intros <;> rfl

/-- C3: copy-assigning from a source with zero expression children succeeds
and yields a node with the source's kind, offset and payload (the
destination's child sequences are retained); a source with one or more
expression children makes the assertion fail. -/
theorem copyAssign_contract (dst src : IRNode) :
    (src.fExpressionChildren = [] →
      IRNode.copyAssign dst src =
        .ok ⟨src.fOffset, src.fKind, src.fData,
             dst.fExpressionChildren, dst.fStatementChildren⟩) ∧
    (src.fExpressionChildren ≠ [] →
      IRNode.copyAssign dst src = .error .assertFail) := by
  constructor
  · intro h
    simp [IRNode.copyAssign, h]
  · intro h
    simp [IRNode.copyAssign, h]

/-- Instantiation of C3: the assignment from `srcStmtNode` (no expression
children, one statement child) succeeds; from `srcExprNode` (one expression
child) it faults. -/
theorem copyAssign_contract_witness :
    IRNode.copyAssign dstNode srcStmtNode =
      .ok ⟨srcStmtNode.fOffset, srcStmtNode.fKind, srcStmtNode.fData,
           dstNode.fExpressionChildren, dstNode.fStatementChildren⟩ ∧
    IRNode.copyAssign dstNode srcExprNode = .error .assertFail :=
  ⟨(copyAssign_contract dstNode srcStmtNode).1 rfl,
   (copyAssign_contract dstNode srcExprNode).2 (by decide)⟩

/-- C7: `expressionChild(i)` for i in [0, count) returns exactly the child
stored at position i of the expression sequence (insertion order), and any
out-of-range i faults; `statementChild` behaves the same way on the
independently indexed statement sequence. -/
theorem child_access_contract (n : IRNode) (i : Int) :
    (∀ c, 0 ≤ i → n.fExpressionChildren.get? i.toNat = some c →
      n.expressionChild i = .ok c) ∧
    (i < 0 ∨ (n.fExpressionChildren.length : Int) ≤ i →
      n.expressionChild i = .error .assertFail) ∧
    (∀ c, 0 ≤ i → n.fStatementChildren.get? i.toNat = some c →
      n.statementChild i = .ok c) ∧
    (i < 0 ∨ (n.fStatementChildren.length : Int) ≤ i →
      n.statementChild i = .error .assertFail) := by
  refine ⟨?_, ?_, ?_, ?_⟩
  · intro c h0 hc
    obtain ⟨hlt, hget⟩ := List.get?_eq_some.mp hc
    have hcond : 0 ≤ i ∧ i < (n.fExpressionChildren.length : Int) := by omega
    simp only [IRNode.expressionChild, dif_pos hcond]
    exact congrArg Except.ok hget
  · intro h
    have hcond : ¬(0 ≤ i ∧ i < (n.fExpressionChildren.length : Int)) := by omega
    simp only [IRNode.expressionChild, dif_neg hcond]
  · intro c h0 hc
    obtain ⟨hlt, hget⟩ := List.get?_eq_some.mp hc
    have hcond : 0 ≤ i ∧ i < (n.fStatementChildren.length : Int) := by omega
    simp only [IRNode.statementChild, dif_pos hcond]
    exact congrArg Except.ok hget
  · intro h
    have hcond : ¬(0 ≤ i ∧ i < (n.fStatementChildren.length : Int)) := by omega
    simp only [IRNode.statementChild, dif_neg hcond]

/-- Instantiation of C7 on `childNode`: in-range indices return the stored
children, out-of-range indices fault, on both sequences independently. -/
theorem child_access_contract_witness :
    childNode.expressionChild 1 = .ok ⟨11, []⟩ ∧
    childNode.expressionChild 2 = .error .assertFail ∧
    childNode.statementChild 0 = .ok ⟨20, []⟩ ∧
    childNode.statementChild (-1) = .error .assertFail :=
  ⟨(child_access_contract childNode 1).1 ⟨11, []⟩ (by decide) rfl,
   (child_access_contract childNode 2).2.1 (Or.inr (by decide)),
   (child_access_contract childNode 0).2.2.1 ⟨20, []⟩ (by decide) rfl,
   (child_access_contract childNode (-1)).2.2.2 (Or.inl (by decide))⟩

/-- C9: copy-assignment writes only kind, offset and payload; the
destination's own child sequences are left exactly as they were, and the
source's statement children (which may be nonempty) are never copied. -/
theorem copyAssign_frame (dst src r : IRNode)
    (h : IRNode.copyAssign dst src = .ok r) :
    r.fExpressionChildren = dst.fExpressionChildren ∧
    r.fStatementChildren = dst.fStatementChildren ∧
    r.fKind = src.fKind ∧ r.fOffset = src.fOffset ∧ r.fData = src.fData := by
  by_cases he : src.fExpressionChildren.isEmpty
  · rw [IRNode.copyAssign, if_pos he] at h
    injection h with h2
    subst h2
    exact ⟨rfl, rfl, rfl, rfl, rfl⟩
  · rw [IRNode.copyAssign, if_neg he] at h
    exact (Except.noConfusion h)

/-- Instantiation of C9: assigning from a source that owns a statement child
leaves the destination's child sequences untouched and copies only kind,
offset and payload. -/
theorem copyAssign_frame_witness :
    assignedNode.fExpressionChildren = dstNode.fExpressionChildren ∧
    assignedNode.fStatementChildren = dstNode.fStatementChildren ∧
    assignedNode.fKind = srcStmtNode.fKind ∧
    assignedNode.fOffset = srcStmtNode.fOffset ∧
    assignedNode.fData = srcStmtNode.fData :=
  copyAssign_frame dstNode srcStmtNode assignedNode rfl

/-- C10: the TypeReference constructor's default argument stores a null type
pointer; `type()` on such a node dereferences that null pointer, and `type()`
on a TypeReference node is well-defined exactly when the stored pointer is
non-null. -/
theorem typeReference_null (off k : Int) (es ss : List Child) :
    (∀ o2 k2 : Int, (IRNode.mkTypeDefault o2 k2).type = .error .nullDeref) ∧
    (∀ p : TypePtr,
      ((IRNode.mk off k (.kType p) es ss).type = .error .nullDeref ↔ p = none)) ∧
    (∀ T : Nat, (IRNode.mk off k (.kType (some T)) es ss).type = .ok T) := by
  refine ⟨fun o2 k2 => rfl, ?_, fun T => rfl⟩
  intro p
  cases p <;> simp [IRNode.type, derefType]

/-- C5: the payload copy constructor produces a value equal to the source —
value fields are deep-copied and weak (non-owning) references keep pointing at
the same external records — and its reference-count effect acquires exactly
one share per shared scope-table handle the source holds, raising each
table's share count accordingly. -/
theorem payload_copy (src : NodeData) (s : TableId → Nat) :
    (NodeData.copyCtor src).1 = src ∧
    ∀ t, runEvents s (NodeData.copyCtor src).2 t = s t + src.sharedTables.count t := by
  unfold NodeData.copyCtor
  rw [NodeData.assign_eq]
  refine ⟨rfl, ?_⟩
  intro t
  have hnil : (NodeData.kType none).cleanupEvents = [] := rfl
  simp only [hnil, List.nil_append]
  exact runEvents_acquires s src.sharedTables t

/-- C6: payload assignment first runs the previously active shape's
destructor to completion — the releases in its event trace are exactly the
shared handles the destination held, and every release occurs strictly before
any acquire performed while installing the new shape — and afterwards the
variant holds exactly the source's shape and values. -/
theorem payload_assign_order (dst src : NodeData) :
    (NodeData.assign dst src).1 = src ∧
    (NodeData.assign dst src).2.filter Ev.isRelease = dst.cleanupEvents ∧
    (∀ i j t u, (NodeData.assign dst src).2.get? i = some (Ev.release t) →
      (NodeData.assign dst src).2.get? j = some (Ev.acquire u) → i < j) := by
  rw [NodeData.assign_eq]
  refine ⟨rfl, ?_, ?_⟩
  · rw [List.filter_append]
    have h1 : dst.cleanupEvents.filter Ev.isRelease = dst.cleanupEvents := by
      rw [List.filter_eq_self]
      intro a ha
      rw [NodeData.cleanupEvents_eq] at ha
      rcases List.mem_map.mp ha with ⟨x, _, rfl⟩
      rfl
    have h2 : (src.sharedTables.map Ev.acquire).filter Ev.isRelease = [] := by
      rw [List.filter_eq_nil_iff]
      intro a ha
      rcases List.mem_map.mp ha with ⟨x, _, rfl⟩
      simp [Ev.isRelease]
    rw [h1, h2, List.append_nil]
  · intro i j t u hi hj
    have hiL : i < dst.cleanupEvents.length := by
      by_contra hge
      push_neg at hge
      rw [List.get?_append_right hge] at hi
      have := List.get?_mem hi
      rcases List.mem_map.mp this with ⟨x, _, hx⟩
      cases hx
    have hjL : dst.cleanupEvents.length ≤ j := by
      by_contra hlt
      push_neg at hlt
      rw [List.get?_append hlt] at hj
      have := List.get?_mem hj
      rw [NodeData.cleanupEvents_eq] at this
      rcases List.mem_map.mp this with ⟨x, _, hx⟩
      cases hx
    omega

/-- Instantiation of C6: assigning a ForHeader payload (table 2) over a Block
payload (table 1) yields the source value, and the release of table 1 at trace
position 0 precedes the acquire of table 2 at position 1. -/
theorem payload_assign_order_witness :
    (NodeData.assign (.kBlock ⟨some 1, true⟩) (.kForStatement ⟨some 2⟩)).1 =
      NodeData.kForStatement ⟨some 2⟩ ∧ (0 : Nat) < 1 :=
  ⟨(payload_assign_order (.kBlock ⟨some 1, true⟩) (.kForStatement ⟨some 2⟩)).1,
   (payload_assign_order (.kBlock ⟨some 1, true⟩) (.kForStatement ⟨some 2⟩)).2.2
     0 1 1 2 rfl rfl⟩

/-! Concrete nodes for the payload-shape and dead-code scenarios. -/

/-- An IntLiteral-shaped node with no children. -/
def nodeIntLit : IRNode := ⟨0, 10, .kIntLiteral ⟨some 3, 42⟩, [], []⟩

/-- A TypeReference-shaped node with no children. -/
def nodeTypeRef : IRNode := ⟨1, 11, .kType (some 5), [], []⟩

/-- The node value produced by copy-assigning `nodeIntLit` from `nodeTypeRef`. -/
def nodeAfterAssign : IRNode := ⟨1, 11, .kType (some 5), [], []⟩

/-- C4 fails as stated: copy-assignment is a subsequent operation on the node
that does change the active payload shape when the source carries a different
shape — assigning a TypeReference-shaped source over an IntLiteral-shaped
node succeeds and leaves the node with the TypeReference shape. -/
theorem shape_change_counterexample :
    IRNode.copyAssign nodeIntLit nodeTypeRef = .ok nodeAfterAssign ∧
    nodeAfterAssign.fData.kind ≠ nodeIntLit.fData.kind :=
  ⟨rfl, by decide⟩

/-- C4 amended: no operation changes the active payload shape except
whole-node copy-assignment, which replaces it with the source's shape; the
mutations of the Variable shape's counters preserve the shape. -/
theorem shape_fixed_amended :
    (∀ dst src r, IRNode.copyAssign dst src = .ok r →
      r.fData.kind = src.fData.kind) ∧
    (∀ n c r, IRNode.setVarReadCount n c = .ok r →
      r.fData.kind = n.fData.kind) ∧
    (∀ n c r, IRNode.setVarWriteCount n c = .ok r →
      r.fData.kind = n.fData.kind) := by
  refine ⟨?_, ?_, ?_⟩
  · intro dst src r h
    have := (copyAssign_frame dst src r h).2.2.2.2
    rw [this]
  · intro n c r h
    unfold IRNode.setVarReadCount at h
    split at h
    · injection h with h2
      subst h2
      rename_i d heq
      simp [heq, NodeData.kind]
    · exact (Except.noConfusion h)
  · intro n c r h
    unfold IRNode.setVarWriteCount at h
    split at h
    · injection h with h2
      subst h2
      rename_i d heq
      simp [heq, NodeData.kind]
    · exact (Except.noConfusion h)

/-- The Variable payload of spec scenario C: name "x", local storage, no
initial value, read-count 0, write-count 1. -/
def varX : VariableData := ⟨"x", some 1, none, 0, 0, 1, storageLocal, false⟩

/-- A Variable-shaped node holding `varX`. -/
def varNode : IRNode := ⟨0, 20, .kVariable varX, [], []⟩

/-- `varNode` after its read-count is externally set to 5. -/
def varNodeRead5 : IRNode := ⟨0, 20, .kVariable { varX with fReadCount := 5 }, [], []⟩

/-- Instantiation of the amended C4: the concrete assignment and the concrete
counter mutation both leave the payload shape equal to the required one. -/
theorem shape_fixed_amended_witness :
    nodeAfterAssign.fData.kind = nodeTypeRef.fData.kind ∧
    varNodeRead5.fData.kind = varNode.fData.kind :=
  ⟨shape_fixed_amended.1 nodeIntLit nodeTypeRef nodeAfterAssign rfl,
   shape_fixed_amended.2.1 varNode 5 varNodeRead5 rfl⟩

/-- C8 fails as stated: for the scenario variable (read-count 0, write-count
1, local storage) the dead-code eligibility predicate (read-count == 0 AND
storage-class is not out) already evaluates to true while write-count is 1,
not false — the predicate does not consult the write-count. -/
theorem deadcode_counterexample :
    varX.fReadCount = 0 ∧ varX.fWriteCount = 1 ∧ varX.fStorage ≠ storageOut ∧
    varX.deadCodeEligible = true := by
  decide

/-- C8 amended: for the scenario variable the predicate evaluates to true both
while write-count is 1 and after write-count is externally set to 0; its value
is independent of the write-count. -/
theorem deadcode_amended :
    varX.deadCodeEligible = true ∧
    (varX.setWriteCount 0).deadCodeEligible = true ∧
    ∀ w, (varX.setWriteCount w).deadCodeEligible = true :=
  ⟨rfl, rfl, fun _ => rfl⟩

/-- Segment bound for destruction traces of shape `A ++ (B ++ C)`: if the
`stmtDone` markers cannot occur in `B` or `C` and `C` releases table `t` at
least once, then any `stmtDone` marker sits strictly before the final `C`
segment, and the releases of `t` seen up to and including it are strictly
fewer than the releases of `t` in the whole trace. -/
theorem stmtDone_segment_bound (A B C : List DEv) (t : TableId)
    (hB : ∀ id, DEv.stmtDone id ∉ B) (hC : ∀ id, DEv.stmtDone id ∉ C)
    (hCt : 0 < C.count (DEv.release t)) (i : Nat) (id : Nat)
    (hi : (A ++ (B ++ C)).get? i = some (DEv.stmtDone id)) :
    i + C.length < (A ++ (B ++ C)).length ∧
    relCount t ((A ++ (B ++ C)).take (i + 1)) < relCount t (A ++ (B ++ C)) := by
  have hiA : i < A.length := by
    by_contra hge
    push_neg at hge
    rw [List.get?_append_right hge] at hi
    have hmem := List.get?_mem hi
    rcases List.mem_append.mp hmem with h1 | h1
    · exact hB id h1
    · exact hC id h1
  have htake : (A ++ (B ++ C)).take (i + 1) = A.take (i + 1) := by
    rw [List.take_append_eq_append_take]
    have h0 : i + 1 - A.length = 0 := by omega
    rw [h0]
    simp
  have hcount1 : relCount t (A.take (i + 1)) ≤ relCount t A :=
    (List.take_sublist (i + 1) A).count_le (DEv.release t)
  have hcount2 : relCount t (A ++ (B ++ C)) =
      relCount t A + (relCount t B + relCount t C) := by
    simp [relCount, List.count_append]
  constructor
  · rw [List.length_append, List.length_append]
    omega
  · rw [htake, hcount2]
    have : relCount t C = C.count (DEv.release t) := rfl
    omega

/-- C1: destroying a node whose payload (Block or ForHeader shaped, or any
payload holding a shared scope-table handle) holds a share of table `t`
destroys every statement child strictly before the payload teardown events at
the end of the trace, and at the point where any statement child has just
finished destructing, strictly fewer than all releases of `t` have happened —
with an accurate initial share count, the count is still positive there, so it
reaches zero only after the last statement child is gone. -/
theorem destroy_stmt_children_before_payload (n : IRNode) (t : TableId)
    (s0 : TableId → Nat)
    (ht : t ∈ n.fData.sharedTables)
    (hs : s0 t = relCount t n.destroyTrace) :
    ∀ i id, n.destroyTrace.get? i = some (DEv.stmtDone id) →
      i + n.fData.sharedTables.length < n.destroyTrace.length ∧
      0 < s0 t - relCount t (n.destroyTrace.take (i + 1)) := by
  intro i id hi
  have htr : n.destroyTrace =
      (n.fStatementChildren.map Child.destroyEventsStmt).flatten ++
      ((n.fExpressionChildren.map Child.destroyEventsExpr).flatten ++
        n.fData.sharedTables.map DEv.release) := by
    rw [IRNode.destroyTrace, List.append_assoc]
  have hB : ∀ id2, DEv.stmtDone id2 ∉
      (n.fExpressionChildren.map Child.destroyEventsExpr).flatten := by
    intro id2 hmem
    rcases List.mem_flatten.mp hmem with ⟨l, hl, hin⟩
    rcases List.mem_map.mp hl with ⟨c, _, rfl⟩
    simp [Child.destroyEventsExpr] at hin
  have hC : ∀ id2, DEv.stmtDone id2 ∉ n.fData.sharedTables.map DEv.release := by
    intro id2 hmem
    rcases List.mem_map.mp hmem with ⟨x, _, hx⟩
    cases hx
  have hCt : 0 < (n.fData.sharedTables.map DEv.release).count (DEv.release t) := by
    have hm : DEv.release t ∈ n.fData.sharedTables.map DEv.release :=
      List.mem_map.mpr ⟨t, ht, rfl⟩
    exact List.count_pos_iff.mpr hm
  rw [htr] at hi hs ⊢
  have hmain := stmtDone_segment_bound _ _ _ t hB hC hCt i id hi
  have hlen : (n.fData.sharedTables.map DEv.release).length =
      n.fData.sharedTables.length := List.length_map _ _
  exact ⟨by omega, by omega⟩

/-- First statement child of the C1 scenario, holding a share of table 0. -/
def blockChild0 : Child := ⟨100, [0]⟩

/-- Second statement child of the C1 scenario, holding a share of table 0. -/
def blockChild1 : Child := ⟨101, [0]⟩

/-- A Block-shaped node holding a payload share of scope table 0, with two
statement children that also hold shares of it. -/
def blockNode : IRNode := ⟨0, 5, .kBlock ⟨some 0, true⟩, [], [blockChild0, blockChild1]⟩

/-- Share counts before destruction: table 0 has three live shares (payload
plus the two statement children), everything else none. -/
def shareCount0 : TableId → Nat := fun u => if u = 0 then 3 else 0

/-- Instantiation of C1 on `blockNode`: at the trace position where the first
statement child finishes destructing, the payload teardown is still ahead and
table 0's share count is still positive. -/
theorem destroy_order_witness :
    1 + blockNode.fData.sharedTables.length < blockNode.destroyTrace.length ∧
    0 < shareCount0 0 - relCount 0 (blockNode.destroyTrace.take 2) :=
  destroy_stmt_children_before_payload blockNode 0 shareCount0 (by decide)
    (by decide) 1 100 (by decide)

end SkSL
